import Mathlib

set_option linter.unusedVariables false

/-!
Verification of the T-Prep study-aid service (`src/main.py`).

The embedding below translates the FastAPI application in `src/main.py` into Lean:
the relational store reached through the ORM becomes an explicit `DB` record, each
endpoint handler becomes a function from its inputs and the current store to an
`Except HTTPError` result, and the external deferred-task substrate (Celery's
`apply_async`) becomes an explicit queue of `ScheduledTask` values.  External
collaborators (password hashing, the chat-completion API, the UTF-8 decoder and
the docx paragraph parser) are passed in as oracle functions or pre-decoded
fields, as the spec treats them as opaque.  Helper modules of the repository that
are imported by `src/main.py` but whose code is not in `src/` (`crud`, `tasks`)
are modelled from the spec; each such definition is marked in its doc comment.
-/

namespace TPrep

/-! ### Python string primitives used by `import_questions` -/

/-- The ASCII whitespace characters removed by Python's `str.strip()`:
space, tab, newline, carriage return, vertical tab and form feed. -/
def pyIsSpace (c : Char) : Bool :=
  c == ' ' || c == '\t' || c == '\n' || c == '\r' || c == '\x0b' || c == '\x0c'

/-- Python's `str.strip()`: remove leading and trailing whitespace characters. -/
def pythonStrip (s : String) : String :=
  ⟨List.rdropWhile pyIsSpace (s.data.dropWhile pyIsSpace)⟩

/-- Python's `str.split(sep)` for a one-character separator, on character lists:
split at every occurrence of the separator, keeping empty segments. -/
def pySplitCharList (sep : Char) : List Char → List (List Char)
  | [] => [[]]
  | c :: cs =>
    if c == sep then [] :: pySplitCharList sep cs
    else
      match pySplitCharList sep cs with
      | [] => [[c]]
      | l :: ls => (c :: l) :: ls

/-- Python's `str.split(sep)` for a one-character separator. -/
def pySplit (s : String) (sep : Char) : List String :=
  (pySplitCharList sep s.data).map (fun cs => ⟨cs⟩)

/-- `pat` is an initial segment of `l`. -/
def listBeginsWith : List Char → List Char → Bool
  | _, [] => true
  | [], _ :: _ => false
  | c :: cs, d :: ds => c == d && listBeginsWith cs ds

/-- Python's `str.endswith`: `suffixStr` is a final segment of `s`. -/
def pyEndsWith (s suffixStr : String) : Bool :=
  listBeginsWith s.data.reverse suffixStr.data.reverse

/-! ### Data model (`models.py`, as described by §3 of the spec) -/

/-- A registered user: src/main.py stores `email` and a password hash. -/
structure User where
  id : Int
  email : String
  hashed_password : String
deriving Repr, DecidableEq

/-- An imported question, owned by a user. -/
structure Question where
  id : Int
  question_text : String
  user_id : Int
deriving Repr, DecidableEq

/-- A generated answer for a question. -/
structure Answer where
  id : Int
  question_id : Int
  answer_text : String
deriving Repr, DecidableEq

/-- The relational store behind the ORM session. -/
structure DB where
  users : List User
  questions : List Question
  answers : List Answer
deriving Repr, DecidableEq

/-- The store with no rows. -/
def emptyDB : DB := ⟨[], [], []⟩

/-- An HTTP error response, as raised by `HTTPException(status_code, detail)`. -/
structure HTTPError where
  status_code : Nat
  detail : String
deriving Repr, DecidableEq

/-! ### Store operations (`crud.py`, imported by src/main.py but not under src/) -/

/-- Modelled from the spec: `crud.get_user_by_email` (imported at src/main.py line 16,
code not under src/) looks a user up in the credential store by email,
case-sensitively (§3: email unique, case-sensitive as stored). -/
def get_user_by_email (db : DB) (email : String) : Option User :=
  db.users.find? (fun u => u.email == email)

/-- Modelled from the spec: `crud.create_user` (code not under src/) creates one
User row {id (unique, generated), email, password_hash} (§3). -/
def create_user (db : DB) (email hashed_password : String) : DB :=
  { db with users := db.users ++ [⟨(db.users.length : Int) + 1, email, hashed_password⟩] }

/-- Modelled from the spec: `crud.create_question` (code not under src/) creates one
Question row {id (unique, generated), question_text, owner_user_id} per parsed
line/paragraph (§3). -/
def create_question (db : DB) (question_text : String) (user_id : Int) : DB :=
  { db with questions :=
      db.questions ++ [⟨(db.questions.length : Int) + 1, question_text, user_id⟩] }

/-- Modelled from the spec: `crud.create_answer` (code not under src/) creates one
Answer row {id (unique, generated), question_id, answer_text} (§3). -/
def create_answer (db : DB) (question_id : Int) (answer_text : String) : DB :=
  { db with answers :=
      db.answers ++ [⟨(db.answers.length : Int) + 1, question_id, answer_text⟩] }

/-! ### The deferred-task substrate (`tasks.py`, not under src/) -/

/-- One deferred action accepted by the execution substrate: the payload tuple
`(question_id, interval)` together with the countdown in seconds. -/
structure ScheduledTask where
  question_id : Int
  arg_interval : Nat
  countdown : Nat
deriving Repr, DecidableEq

/-- Modelled from the spec: `tasks.schedule_notification.apply_async` (code not under
src/) — the external deferred-task substrate accepts `(payload, countdown_seconds)`
and enqueues one deferred action, returning immediately (§6, glossary). -/
def apply_async (queue : List ScheduledTask) (question_id : Int)
    (arg_interval countdown : Nat) : List ScheduledTask :=
  queue ++ [⟨question_id, arg_interval, countdown⟩]

/-! ### Endpoint handlers (src/main.py) -/

/-- `POST /register` (src/main.py lines 41-48).  `hash` abstracts the external
`utils.get_password_hash` utility. -/
def register (hash : String → String) (db : DB) (email password : String) :
    Except HTTPError (DB × String) :=
  match get_user_by_email db email with
  | some _ => .error ⟨400, "Email already registered"⟩
  | none => .ok (create_user db email (hash password), "User created successfully")

/-- An uploaded file.  `textContent` models `file.file.read().decode("utf-8")`;
`paragraphTexts` models the `para.text` of `Document(file.file).paragraphs`
(python-docx, an external rich-text parser). -/
structure UploadFile where
  filename : String
  textContent : String
  paragraphTexts : List String
deriving Repr, DecidableEq

/-- src/main.py line 64: `[line.strip() for line in content.split("\n") if line.strip()]`. -/
def txtQuestions (content : String) : List String :=
  ((pySplit content '\n').filter (fun line => pythonStrip line != "")).map pythonStrip

/-- src/main.py line 67: `[para.text for para in doc.paragraphs if para.text.strip()]`. -/
def docxQuestions (paragraphTexts : List String) : List String :=
  paragraphTexts.filter (fun t => pythonStrip t != "")

/-- `POST /import-questions` (src/main.py lines 60-73): branch on the filename
extension, parse the file into question strings, store each with `user_id=1`. -/
def import_questions (db : DB) (file : UploadFile) : Except HTTPError (DB × String) :=
  if pyEndsWith file.filename ".txt" then
    let questions := txtQuestions file.textContent
    let db2 := questions.foldl (fun d question_text => create_question d question_text 1) db
    .ok (db2, "Imported " ++ toString questions.length ++ " questions")
  else if pyEndsWith file.filename ".docx" then
    let questions := docxQuestions file.paragraphTexts
    let db2 := questions.foldl (fun d question_text => create_question d question_text 1) db
    .ok (db2, "Imported " ++ toString questions.length ++ " questions")
  else
    .error ⟨400, "Unsupported file format"⟩

/-- `POST /generate-answer` (src/main.py lines 76-87).  `chat` abstracts the external
chat-completion call `openai.ChatCompletion.create(...)`, mapping the question text to
`response.choices[0].message.content`. -/
def generate_answer (chat : String → String) (db : DB) (question_id : Int) :
    Except HTTPError (DB × String) :=
  match db.questions.find? (fun q => q.id == question_id) with
  | none => .error ⟨404, "Question not found"⟩
  | some question =>
    let answer_text := chat question.question_text
    .ok (create_answer db question_id answer_text, answer_text)

/-- src/main.py line 99: `intervals = [20 * 60, 8 * 3600, 24 * 3600]` (in seconds). -/
def reviewIntervals : List Nat := [20 * 60, 8 * 3600, 24 * 3600]

/-- `POST /start-review` (src/main.py lines 97-104): for each interval, enqueue
`schedule_notification.apply_async((question_id, interval), countdown=interval)`;
the `db` session parameter is taken but never consulted. -/
def start_review (db : DB) (question_id : Int) (queue : List ScheduledTask) :
    Except HTTPError (List ScheduledTask × String) :=
  let queue2 := reviewIntervals.foldl
    (fun q interval => apply_async q question_id interval interval) queue
  .ok (queue2, "Review scheduled")

/-- The task queue after one `start_review` call (the call always succeeds). -/
def applyStartReview (db : DB) (question_id : Int) (queue : List ScheduledTask) :
    List ScheduledTask :=
  match start_review db question_id queue with
  | .ok (queue2, _) => queue2
  | .error _ => queue

/-- The task queue after `n` successive `start_review` calls for the same question. -/
def iterStartReview (db : DB) (question_id : Int) (queue : List ScheduledTask) :
    Nat → List ScheduledTask
  | 0 => queue
  | n + 1 => applyStartReview db question_id (iterStartReview db question_id queue n)

/-- The three deferred actions one `start_review` call enqueues for `question_id`. -/
def threeTasks (question_id : Int) : List ScheduledTask :=
  [⟨question_id, 1200, 1200⟩, ⟨question_id, 28800, 28800⟩, ⟨question_id, 86400, 86400⟩]

/-! ### FastAPI dependency injection (which endpoints demand authentication) -/

/-- The values FastAPI injects via `Depends(...)` into a handler.  `oauth2_scheme`
(src/main.py line 25) is the bearer-token check; `get_db` opens an ORM session;
`password_request_form` parses the login form. -/
inductive Dependency where
  | get_db
  | oauth2_scheme
  | password_request_form
deriving Repr, DecidableEq

/-- Dependencies of `register` (src/main.py line 42): only the DB session. -/
def register_dependencies : List Dependency := [.get_db]

/-- Dependencies of `login` (src/main.py line 52): the login form and the DB session. -/
def login_dependencies : List Dependency := [.password_request_form, .get_db]

/-- Dependencies of `import_questions` (src/main.py line 61): only the DB session. -/
def import_questions_dependencies : List Dependency := [.get_db]

/-- Dependencies of `generate_answer` (src/main.py line 77): only the DB session. -/
def generate_answer_dependencies : List Dependency := [.get_db]

/-- Dependencies of `ocr` (src/main.py line 91): none injected via `Depends`. -/
def ocr_dependencies : List Dependency := []

/-- Dependencies of `start_review` (src/main.py line 98): only the DB session. -/
def start_review_dependencies : List Dependency := [.get_db]

/-! ### Helper lemmas -/

/-- One `start_review` call appends exactly the three fixed tasks to the queue. -/
lemma start_review_eq (db : DB) (question_id : Int) (queue : List ScheduledTask) :
    start_review db question_id queue =
      .ok (queue ++ threeTasks question_id, "Review scheduled") := by
  simp [start_review, reviewIntervals, apply_async, threeTasks, List.append_assoc]

lemma applyStartReview_eq (db : DB) (question_id : Int) (queue : List ScheduledTask) :
    applyStartReview db question_id queue = queue ++ threeTasks question_id := by
  simp [applyStartReview, start_review_eq]

lemma iterStartReview_length (db : DB) (question_id : Int) (queue : List ScheduledTask) :
    ∀ n : Nat, (iterStartReview db question_id queue n).length = queue.length + 3 * n := by
  intro n
  induction n with
  | zero => simp [iterStartReview]
  | succ n ih =>
    simp only [iterStartReview, applyStartReview_eq, List.length_append, ih, threeTasks,
      List.length_cons, List.length_nil]
    omega

lemma dropWhile_self_of_append {α : Type} (p : α → Bool) (xs t : List α)
    (hm : (xs ++ t).dropWhile p = xs ++ t) : xs.dropWhile p = xs := by
  cases xs with
  | nil => simp
  | cons y ys =>
    simp only [List.cons_append, List.dropWhile_cons] at hm ⊢
    by_cases hy : p y = true
    · exfalso
      rw [if_pos hy] at hm
      have hlen : ((ys ++ t).dropWhile p).length ≤ (ys ++ t).length :=
        (List.dropWhile_sublist p).length_le
      rw [hm] at hlen
      simp at hlen
    · rw [if_neg hy] at hm ⊢

lemma dropWhile_rdropWhile {α : Type} (p : α → Bool) (m : List α)
    (hm : m.dropWhile p = m) : (List.rdropWhile p m).dropWhile p = List.rdropWhile p m := by
  induction m using List.reverseRecOn with
  | nil => simp [List.rdropWhile]
  | append_singleton xs x ih =>
    by_cases hx : p x = true
    · rw [List.rdropWhile_concat_pos p xs x hx]
      exact ih (dropWhile_self_of_append p xs [x] hm)
    · rw [List.rdropWhile_concat_neg p xs x (by simpa using hx)]
      exact hm

/-- Python `strip` is idempotent: stripping a stripped string changes nothing. -/
lemma pythonStrip_idem (s : String) : pythonStrip (pythonStrip s) = pythonStrip s := by
  show (⟨List.rdropWhile pyIsSpace
      ((List.rdropWhile pyIsSpace (s.data.dropWhile pyIsSpace)).dropWhile pyIsSpace)⟩ : String) = _
  rw [dropWhile_rdropWhile pyIsSpace _ (List.dropWhile_idempotent pyIsSpace s.data),
    List.rdropWhile_idempotent]
  rfl

lemma mem_foldl_create_question (user_id : Int) (ts : List String) :
    ∀ (db : DB) (q : Question),
      q ∈ (ts.foldl (fun d question_text => create_question d question_text user_id) db).questions →
      q ∈ db.questions ∨ q.user_id = user_id := by
  induction ts with
  | nil => exact fun db q hq => Or.inl hq
  | cons t ts ih =>
    intro db q hq
    rcases ih (create_question db t user_id) q hq with h | h
    · have h3 : q ∈ db.questions ∨ q = ⟨(db.questions.length : Int) + 1, t, user_id⟩ := by
        simpa [create_question] using h
      rcases h3 with h2 | h2
      · exact Or.inl h2
      · right
        rw [h2]
    · exact Or.inr h

/-! ### Claims -/

/-- C1: for every `question_id`, one `start_review` call schedules exactly three
deferred actions, with offsets exactly [1200, 28800, 86400] seconds in that ascending
order, each carrying the same `question_id` and a countdown equal to its offset, and
returns the message "Review scheduled" (the call returns at once; no action fires). -/
theorem start_review_schedules_three_fixed_offsets (db : DB) (question_id : Int)
    (queue : List ScheduledTask) :
    start_review db question_id queue =
      .ok (queue ++ threeTasks question_id, "Review scheduled") ∧
    (threeTasks question_id).length = 3 ∧
    (threeTasks question_id).map ScheduledTask.countdown = [1200, 28800, 86400] ∧
    (threeTasks question_id).map ScheduledTask.question_id =
      [question_id, question_id, question_id] ∧
    (threeTasks question_id).map ScheduledTask.arg_interval =
      (threeTasks question_id).map ScheduledTask.countdown :=
  ⟨start_review_eq db question_id queue, rfl, rfl, rfl, rfl⟩

/-- C2: for every `question_id` and every `n ≥ 1`, calling `start_review` `n` times
schedules exactly `3 * n` deferred actions in total — there is no deduplication. -/
theorem start_review_n_calls_schedule_3n_tasks (db : DB) (question_id : Int) (n : Nat)
    (h : 1 ≤ n) : (iterStartReview db question_id [] n).length = 3 * n := by
  simpa using iterStartReview_length db question_id [] n

/-- Witness for C2: two calls for the same question yield six actions, not three. -/
theorem start_review_n_calls_schedule_3n_tasks_witness :
    (iterStartReview emptyDB 7 [] 2).length = 3 * 2 :=
  start_review_n_calls_schedule_3n_tasks emptyDB 7 2 (by norm_num)

/-- C3: every question created by an import request is stored with owner user id 1
(src/main.py line 72 passes `user_id=1`); the handler takes no caller identity at all,
so this holds regardless of which authenticated user made the request. -/
theorem imported_questions_owned_by_user_one (db : DB) (file : UploadFile) (db2 : DB)
    (msg : String) (h : import_questions db file = .ok (db2, msg)) (q : Question)
    (hq : q ∈ db2.questions) : q ∈ db.questions ∨ q.user_id = 1 := by
  unfold import_questions at h
  split at h
  · simp only [Except.ok.injEq, Prod.mk.injEq] at h
    rw [← h.1] at hq
    exact mem_foldl_create_question 1 _ db q hq
  · split at h
    · simp only [Except.ok.injEq, Prod.mk.injEq] at h
      rw [← h.1] at hq
      exact mem_foldl_create_question 1 _ db q hq
    · exact absurd h (by simp)

/-- Witness for C3: the first question imported from a two-line `.txt` file into the
empty store is owned by user 1. -/
theorem imported_questions_owned_by_user_one_witness :
    (⟨1, "x", 1⟩ : Question) ∈ emptyDB.questions ∨ (⟨1, "x", 1⟩ : Question).user_id = 1 :=
  imported_questions_owned_by_user_one emptyDB ⟨"q.txt", "x\ny", []⟩
    ⟨[], [⟨1, "x", 1⟩, ⟨2, "y", 1⟩], []⟩ "Imported 2 questions" rfl ⟨1, "x", 1⟩ (by decide)

/-- C4 (code bug): the claim says every request is authenticated before dispatch, but
`oauth2_scheme` (src/main.py line 25) is never injected into any endpoint: none of the
import, generate-answer, OCR or start-review handlers lists it among its dependencies,
and `start_review` runs to completion against a store with no users at all — no
credential is ever consulted. -/
theorem operations_execute_without_authentication :
    Dependency.oauth2_scheme ∉ import_questions_dependencies ∧
    Dependency.oauth2_scheme ∉ generate_answer_dependencies ∧
    Dependency.oauth2_scheme ∉ ocr_dependencies ∧
    Dependency.oauth2_scheme ∉ start_review_dependencies ∧
    start_review emptyDB 1 [] =
      .ok ([⟨1, 1200, 1200⟩, ⟨1, 28800, 28800⟩, ⟨1, 86400, 86400⟩], "Review scheduled") :=
  ⟨by decide, by decide, by decide, by decide, rfl⟩

/-- C5: `start_review` never reads the question store, so it returns the success
message "Review scheduled" (and schedules the three actions) even when `question_id`
references no existing question; no NotFound or other failure is possible. -/
theorem start_review_succeeds_for_missing_question (db : DB) (question_id : Int)
    (queue : List ScheduledTask) (h : ∀ q ∈ db.questions, q.id ≠ question_id) :
    start_review db question_id queue =
      .ok (queue ++ threeTasks question_id, "Review scheduled") :=
  start_review_eq db question_id queue

/-- Witness for C5: question id 42 exists nowhere in the empty store, yet the call
succeeds. -/
theorem start_review_succeeds_for_missing_question_witness :
    start_review emptyDB 42 [] = .ok ([] ++ threeTasks 42, "Review scheduled") :=
  start_review_succeeds_for_missing_question emptyDB 42 [] (by decide)

/-- C6: importing a `.txt` file whose decoded content is "a\n\nb\n" into the empty
store creates exactly two questions, "a" then "b": the content is split on line
breaks and blank lines are discarded. -/
theorem import_txt_drops_blank_lines :
    import_questions emptyDB ⟨"questions.txt", "a\n\nb\n", []⟩ =
      .ok (⟨[], [⟨1, "a", 1⟩, ⟨2, "b", 1⟩], []⟩, "Imported 2 questions") := rfl

/-- C7: importing a file whose name ends in neither ".txt" nor ".docx" fails with the
UnsupportedFormat error (HTTP 400, "Unsupported file format"); the handler raises
before any `create_question` call, so the store is unchanged and no question row is
created. -/
theorem import_unsupported_extension_fails (db : DB) (file : UploadFile)
    (h1 : pyEndsWith file.filename ".txt" = false)
    (h2 : pyEndsWith file.filename ".docx" = false) :
    import_questions db file = .error ⟨400, "Unsupported file format"⟩ := by
  simp [import_questions, h1, h2]

/-- Witness for C7: a `.pdf` upload is rejected. -/
theorem import_unsupported_extension_fails_witness :
    import_questions emptyDB ⟨"file.pdf", "", []⟩ =
      .error ⟨400, "Unsupported file format"⟩ :=
  import_unsupported_extension_fails emptyDB ⟨"file.pdf", "", []⟩ (by decide) (by decide)

/-- C8: registering an email not yet present succeeds with "User created successfully"
and stores exactly one user with that email; registering the same email again fails
with the AlreadyExists error (HTTP 400, "Email already registered"), creating nothing. -/
theorem register_same_email_twice (hash : String → String) (db : DB)
    (email password password2 : String) (h : get_user_by_email db email = none) :
    register hash db email password =
      .ok (create_user db email (hash password), "User created successfully") ∧
    ((create_user db email (hash password)).users.filter
      (fun u => u.email == email)).length = 1 ∧
    register hash (create_user db email (hash password)) email password2 =
      .error ⟨400, "Email already registered"⟩ := by
  refine ⟨by simp [register, h], ?_, ?_⟩
  · have hnil : db.users.filter (fun u => u.email == email) = [] :=
      List.filter_eq_nil_iff.mpr (List.find?_eq_none.mp h)
    simp [create_user, List.filter_append, hnil]
  · have h0 : db.users.find? (fun u => u.email == email) = none := h
    have h2 : get_user_by_email (create_user db email (hash password)) email =
        some ⟨(db.users.length : Int) + 1, email, hash password⟩ := by
      simp [get_user_by_email, create_user, List.find?_append, h0]
    simp [register, h2]

/-- Witness for C8: registering "a@b.c" twice against the empty store. -/
theorem register_same_email_twice_witness :
    register (fun s => s) emptyDB "a@b.c" "pw" =
      .ok (create_user emptyDB "a@b.c" "pw", "User created successfully") ∧
    ((create_user emptyDB "a@b.c" "pw").users.filter (fun u => u.email == "a@b.c")).length = 1 ∧
    register (fun s => s) (create_user emptyDB "a@b.c" "pw") "a@b.c" "pw2" =
      .error ⟨400, "Email already registered"⟩ :=
  register_same_email_twice (fun s => s) emptyDB "a@b.c" "pw" "pw2" rfl

/-- C9: `generate_answer` on a question id with no matching question fails with the
NotFound error (HTTP 404, "Question not found") and creates no answer; when the
question is found, exactly one answer row is appended, storing the external
chat-completion response verbatim, and that same text is returned. -/
theorem generate_answer_not_found_or_verbatim (chat : String → String) (db : DB)
    (question_id : Int) :
    (db.questions.find? (fun q => q.id == question_id) = none →
      generate_answer chat db question_id = .error ⟨404, "Question not found"⟩) ∧
    (∀ q, db.questions.find? (fun q2 => q2.id == question_id) = some q →
      generate_answer chat db question_id =
        .ok (create_answer db question_id (chat q.question_text), chat q.question_text) ∧
      (create_answer db question_id (chat q.question_text)).answers =
        db.answers ++ [⟨(db.answers.length : Int) + 1, question_id,
          chat q.question_text⟩]) := by
  constructor
  · intro h
    simp [generate_answer, h]
  · intro q h
    exact ⟨by simp [generate_answer, h], by simp [create_answer]⟩

/-- Witness for C9: id 5 is absent from the empty store and fails; id 1 is present in a
one-question store, and the oracle's reply "A1" is stored and returned verbatim. -/
theorem generate_answer_not_found_or_verbatim_witness :
    generate_answer (fun _ => "A1") emptyDB 5 = .error ⟨404, "Question not found"⟩ ∧
    generate_answer (fun _ => "A1") ⟨[], [⟨1, "q", 1⟩], []⟩ 1 =
      .ok (create_answer ⟨[], [⟨1, "q", 1⟩], []⟩ 1 "A1", "A1") :=
  ⟨(generate_answer_not_found_or_verbatim (fun _ => "A1") emptyDB 5).1 rfl,
    ((generate_answer_not_found_or_verbatim (fun _ => "A1") ⟨[], [⟨1, "q", 1⟩], []⟩ 1).2
      ⟨1, "q", 1⟩ rfl).1⟩

/-- C10: the two import formats treat surrounding whitespace differently: every text
stored from a `.txt` file is stripped (stripping it again changes nothing), while a
`.docx` paragraph is stored exactly as-is — each stored text is literally a member of
the paragraph list — and a paragraph is kept if and only if it is non-blank after
stripping. -/
theorem txt_strips_docx_keeps_whitespace (content : String) (paras : List String)
    (q r s : String) (hq : q ∈ txtQuestions content) (hr : r ∈ docxQuestions paras)
    (hs : s ∈ paras) (hsb : pythonStrip s ≠ "") :
    pythonStrip q = q ∧ r ∈ paras ∧ pythonStrip r ≠ "" ∧ s ∈ docxQuestions paras := by
  refine ⟨?_, ?_, ?_, ?_⟩
  · obtain ⟨line, _, hline⟩ := List.mem_map.mp hq
    rw [← hline]
    exact pythonStrip_idem line
  · exact (List.mem_filter.mp hr).1
  · have := (List.mem_filter.mp hr).2
    simpa using this
  · exact List.mem_filter.mpr ⟨hs, by simpa using hsb⟩

/-- Witness for C10: " a \nb" as `.txt` stores the stripped "a"; the paragraph " b "
survives a `.docx` import with its surrounding spaces intact. -/
theorem txt_strips_docx_keeps_whitespace_witness :
    pythonStrip "a" = "a" ∧ " b " ∈ [" b ", " "] ∧ pythonStrip " b " ≠ "" ∧
    " b " ∈ docxQuestions [" b ", " "] :=
  txt_strips_docx_keeps_whitespace " a \nb" [" b ", " "] "a" " b " " b "
    (by decide) (by decide) (by decide) (by decide)

end TPrep
